import Mathlib

/-!
# Verification of the terradozer destruction orchestrator

Shallow embedding of the terradozer sources (`main.go` and the provider
facade file) together with proofs about the embedded definitions.

Conventions of the embedding:
* go-cty dynamic values (`cty.Value`) are modelled by the inductive
  `CtyValue`; object values carry their attributes as an association list
  (Go's `map[string]cty.Value` is unordered, so content statements are made
  order-insensitively via `List.lookup` under a no-duplicate-keys
  hypothesis, which every Go map satisfies).
* `cty.Value.CanIterateElements` is modelled after its documented contract
  in go-cty ("returns true if the receiver can support the ElementIterator
  method without panic"): null values, unknown values and non-collection
  values cannot iterate.
* Fallible Go functions returning `(T, error)` become `Except Unit T`.
* The provider plugin is external to the repository; it is modelled as an
  oracle `ProviderBehavior` mapping each request to a response, and the
  orchestrator additionally records the calls it issues as a list of
  `Event`s so that temporal claims ("never calls", "before") can be stated.
-/

namespace Terradozer

/-- go-cty types, restricted to the constructors the program manipulates. -/
inductive CtyType where
  | bool : CtyType
  | string : CtyType
  | number : CtyType
  | dynamicPseudo : CtyType
  | object : List (String × CtyType) → CtyType
deriving Repr

/-- go-cty dynamic values (`cty.Value`).  `nullV t` is `cty.NullVal(t)`,
`unknownV t` is `cty.UnknownVal(t)`, `objectV` is `cty.ObjectVal`. -/
inductive CtyValue where
  | nullV : CtyType → CtyValue
  | unknownV : CtyType → CtyValue
  | boolV : Bool → CtyValue
  | stringV : String → CtyValue
  | numberV : Int → CtyValue
  | objectV : List (String × CtyValue) → CtyValue
deriving Repr

mutual

/-- `cty.Value.Type()`. -/
def CtyValue.typeOf : CtyValue → CtyType
  | .nullV t => t
  | .unknownV t => t
  | .boolV _ => .bool
  | .stringV _ => .string
  | .numberV _ => .number
  | .objectV attrs => .object (typeOfAttrs attrs)

/-- Types of the attributes of an object value, in order. -/
def typeOfAttrs : List (String × CtyValue) → List (String × CtyType)
  | [] => []
  | (k, v) :: rest => (k, v.typeOf) :: typeOfAttrs rest

end

mutual

/-- Equality of `CtyType`, modelling `cty.Type.Equals`. -/
def CtyType.beq : CtyType → CtyType → Bool
  | .bool, .bool => true
  | .string, .string => true
  | .number, .number => true
  | .dynamicPseudo, .dynamicPseudo => true
  | .object a, .object b => beqFields a b
  | _, _ => false

/-- Attribute-wise equality of object types, in order. -/
def beqFields : List (String × CtyType) → List (String × CtyType) → Bool
  | [], [] => true
  | (k₁, t₁) :: r₁, (k₂, t₂) :: r₂ => k₁ == k₂ && t₁.beq t₂ && beqFields r₁ r₂
  | _, _ => false

end

/-- `cty.Value.IsNull()`. -/
def CtyValue.isNull : CtyValue → Bool
  | .nullV _ => true
  | _ => false

/-- `cty.Value.CanIterateElements()`: per its documented contract it holds
exactly when iterating the elements cannot panic, i.e. for known, non-null
collection values.  In this embedding the only collection values are
object values. -/
def CtyValue.canIterateElements : CtyValue → Bool
  | .objectV _ => true
  | _ => false

/-- The body of the `range state.AsValueMap()` loop of
`enableForceDestroyAttributes`, applied to each attribute in turn: a
force-destroy-named attribute of boolean type is replaced by `cty.True`, a
force-destroy-named attribute of any other type is not copied into the
result map, every other attribute is copied unchanged. -/
def patchAttrs : List (String × CtyValue) → List (String × CtyValue)
  | [] => []
  | (k, v) :: rest =>
      if k = "force_detach_policies" ∨ k = "force_destroy" then
        if v.typeOf.beq .bool then (k, .boolV true) :: patchAttrs rest
        else patchAttrs rest
      else (k, v) :: patchAttrs rest

/-- `enableForceDestroyAttributes` (provider facade file): sets force
destroy attributes of a resource to true.  If the state cannot iterate
elements the accumulator map stays empty and `cty.ObjectVal` of the empty
map is returned. -/
def enableForceDestroyAttributes (state : CtyValue) : CtyValue :=
  if state.canIterateElements then
    match state with
    | .objectV attrs => .objectV (patchAttrs attrs)
    | _ => .objectV []
  else .objectV []

example :
    enableForceDestroyAttributes
        (.objectV [("force_destroy", .boolV false), ("acl", .stringV "private")])
      = .objectV [("force_destroy", .boolV true), ("acl", .stringV "private")] := rfl

example :
    enableForceDestroyAttributes (.objectV [("force_destroy", .stringV "yes")])
      = .objectV [] := rfl

example :
    enableForceDestroyAttributes (.nullV (.object [("a", .bool)])) = .objectV [] := rfl

/-! ## Resource IDs (`main.go`)

`getResourceID` runs `json.Unmarshal(resInstance.Current.AttrsJSON, &result)`
with `result` a struct holding one string field tagged `json:"id"`.  The
attribute bytes are modelled as `Option Json`: `none` stands for bytes that
are not syntactically valid JSON, `some j` for bytes parsing to the
document `j`.  `encoding/json` semantics for unmarshalling into that
struct: a JSON null leaves the struct at its zero value without error; a
non-object, non-null document is a type error; inside an object, fields
are scanned in order, a key matching `id` (case-insensitively, last match
wins) assigns the field when its value is a string, is ignored when it is
null, and records a type error otherwise; a missing key leaves the zero
value `""` without error. -/

/-- JSON documents. -/
inductive Json where
  | null : Json
  | bool : Bool → Json
  | num : Int → Json
  | str : String → Json
  | arr : List Json → Json
  | obj : List (String × Json) → Json
deriving Repr

/-- Case folding of a JSON object key, for the case-insensitive key match
that `encoding/json` applies to struct field tags. -/
def foldKey (s : String) : List Char := s.data.map Char.toLower

/-- One step of the sequential field scan of `json.Unmarshal` for the
`ResourceID` struct.  The accumulator is (type-error-seen?, field value). -/
def assignIDField (acc : Bool × String) (kv : String × Json) : Bool × String :=
  if foldKey kv.1 = foldKey "id" then
    match kv.2 with
    | .str s => (acc.1, s)
    | .null => acc
    | _ => (true, acc.2)
  else acc

/-- `json.Unmarshal` of a JSON document into the `ResourceID` struct. -/
def unmarshalResourceID : Json → Except Unit String
  | .null => .ok ""
  | .obj fields =>
      let r := fields.foldl assignIDField (false, "")
      if r.1 then .error () else .ok r.2
  | _ => .error ()

/-- `getResourceID` (`main.go`): decode the `id` field from the current
attribute payload of a resource instance. -/
def getResourceID (attrs : Option Json) : Except Unit String :=
  match attrs with
  | none => .error ()
  | some j => unmarshalResourceID j

example : getResourceID (some (.obj [("id", .str "i-123")])) = .ok "i-123" := rfl
example : getResourceID (some (.obj [])) = .ok "" := rfl
example : getResourceID (some (.obj [("id", .num 5)])) = .error () := rfl
example : getResourceID none = .error () := rfl

/-! ## Provider facade (provider source file)

The provider plugin process is external: its behaviour is an oracle
mapping each request to a response.  The facade methods construct the
requests exactly as the source does; the orchestrator records each issued
call as an `Event`. -/

/-- `providers.ImportedResource`. -/
structure ImportedResource where
  typeName : String
  state : CtyValue
  privData : List Nat
deriving Repr

/-- Diagnostics, observed only through `HasErrors()`. -/
structure Diagnostics where
  hasErrors : Bool
deriving Repr

/-- `providers.ImportResourceStateResponse`. -/
structure ImportResponse where
  importedResources : List ImportedResource
  diagnostics : Diagnostics
deriving Repr

/-- `providers.ReadResourceResponse`. -/
structure ReadResponse where
  newState : CtyValue
  privData : List Nat
  diagnostics : Diagnostics
deriving Repr

/-- `providers.ApplyResourceChangeRequest`. -/
structure ApplyRequest where
  typeName : String
  priorState : CtyValue
  plannedState : CtyValue
  config : CtyValue
  plannedPrivate : List Nat
deriving Repr

/-- `providers.ApplyResourceChangeResponse`. -/
structure ApplyResponse where
  newState : CtyValue
  diagnostics : Diagnostics
deriving Repr

/-- Oracle for the external provider plugin's reaction to each request. -/
structure ProviderBehavior where
  importFn : String → String → ImportResponse
  readFn : ImportedResource → ReadResponse
  applyFn : ApplyRequest → ApplyResponse

/-- Calls the program issues, recorded for temporal statements.
`installCall`/`launchCall`/`configureCall` are the provider bootstrap steps
of `mainExitCode` (`InstallProvider`, `NewTerraformProvider`,
`p.Configure`); the others are the per-resource provider requests. -/
inductive Event where
  | installCall : String → String → Event
  | launchCall : Event
  | configureCall : Event
  | importCall : String → String → Event
  | readCall : ImportedResource → Event
  | applyCall : ApplyRequest → Event
deriving Repr

/-- The apply request built by `TerraformProvider.applyResourceChange`
(the variant of the facade that `main.go` calls through
`DeleteResource`): prior state is the refreshed state as returned by Read,
planned state and config are `cty.NullVal(cty.DynamicPseudoType)`. -/
def applyResourceChangeReq (resType : String) (readResp : ReadResponse) : ApplyRequest :=
  { typeName := resType
    priorState := readResp.newState
    plannedState := .nullV .dynamicPseudo
    config := .nullV .dynamicPseudo
    plannedPrivate := readResp.privData }

/-- The apply request built by `TerraformProvider.destroy` (the variant of
the facade in the same source file that patches force-destroy
attributes); its `PlannedPrivate` field is left at its zero value. -/
def destroyReq (resType : String) (currentState : CtyValue) : ApplyRequest :=
  { typeName := resType
    priorState := enableForceDestroyAttributes currentState
    plannedState := .nullV .dynamicPseudo
    config := .nullV .dynamicPseudo
    plannedPrivate := [] }

/-- `TerraformProvider.DeleteResource`: on dry run print and report
success without any provider call; otherwise send the apply request and
report success iff its diagnostics carry no error.  Returns the reported
success together with the provider calls issued. -/
def DeleteResource (p : ProviderBehavior) (resType resID : String)
    (readResp : ReadResponse) (dryRun : Bool) : Bool × List Event :=
  if dryRun then (true, [])
  else
    let req := applyResourceChangeReq resType readResp
    let respApply := p.applyFn req
    if respApply.diagnostics.hasErrors then (false, [.applyCall req])
    else (true, [.applyCall req])

/-! ## Destruction orchestrator (`mainExitCode` in `main.go`) -/

/-- Resource mode of an address (`addrs.ResourceMode`). -/
inductive Mode where
  | managed : Mode
  | dataSource : Mode
deriving Repr, DecidableEq

/-- The part of an absolute resource instance address the orchestrator
reads: `resAddr.Resource.Resource.Mode` and `resAddr.Resource.Resource.Type`. -/
structure ResourceAddr where
  mode : Mode
  type : String
deriving Repr

/-- A resource instance as the loop of `mainExitCode` sees it: whether it
has a current object, and (when it does) the parse of
`Current.AttrsJSON`. -/
structure ResourceInstanceState where
  addr : ResourceAddr
  hasCurrent : Bool
  attrs : Option Json
deriving Repr

/-- Everything external that `mainExitCode` consumes, as one record:
the outcomes of the provider bootstrap steps, the state read and address
lookup, the provider oracle, and the dry-run flag.  `stateResult` models
`getState` followed by `lookupAllResourceInstanceAddrs`: its `.ok` value is
the enumerated list of resource instances in enumeration order. -/
structure Env where
  installDiagsErr : Bool
  installErr : Bool
  launchErr : Bool
  configureDiagsErr : Bool
  stateResult : Except Unit (List ResourceInstanceState)
  lookupDiagsErr : Bool
  provider : ProviderBehavior
  dryRun : Bool

/-- Processing of one imported-resource descriptor (the inner
`for _, resImp := range importResp.ImportedResources` loop body): Read,
skip on read error, skip when the refreshed state is null, otherwise
DeleteResource; returns the deleted-counter increment and the calls
issued. -/
def processImported (p : ProviderBehavior) (dryRun : Bool) (resType resID : String)
    (resImp : ImportedResource) : Nat × List Event :=
  let readResp := p.readFn resImp
  if readResp.diagnostics.hasErrors then (0, [.readCall resImp])
  else if readResp.newState.isNull then (0, [.readCall resImp])
  else
    let d := DeleteResource p resType resID readResp dryRun
    ((if d.1 then 1 else 0), .readCall resImp :: d.2)

/-- Processing of the whole list of imported-resource descriptors. -/
def processImportedList (p : ProviderBehavior) (dryRun : Bool) (resType resID : String) :
    List ImportedResource → Nat × List Event
  | [] => (0, [])
  | r :: rest =>
      let h := processImported p dryRun resType resID r
      let t := processImportedList p dryRun resType resID rest
      (h.1 + t.1, h.2 ++ t.2)

/-- Processing of one resource instance (the body of the
`for _, resAddr := range resInstances` loop).  `.error evs` means the loop
body executed `return 1` (fatal ID-decode failure) after issuing the calls
in `evs`; `.ok (c, evs)` means the loop went on, having added `c` to the
deleted counter.  Mirrors the source order: current check, ID decode
(fatal on error), mode check, import (skip on error), descriptor loop. -/
def processInstance (p : ProviderBehavior) (dryRun : Bool)
    (inst : ResourceInstanceState) : Except (List Event) (Nat × List Event) :=
  if inst.hasCurrent then
    match getResourceID inst.attrs with
    | .error _ => .error []
    | .ok resID =>
        if inst.addr.mode ≠ Mode.managed then .ok (0, [])
        else
          let importResp := p.importFn inst.addr.type resID
          if importResp.diagnostics.hasErrors then
            .ok (0, [.importCall inst.addr.type resID])
          else
            let t := processImportedList p dryRun inst.addr.type resID
                       importResp.importedResources
            .ok (t.1, .importCall inst.addr.type resID :: t.2)
  else .ok (0, [])

/-- The instance loop of `mainExitCode`: threads the deleted counter
through the instances and stops with `.error` as soon as one instance is
fatal, carrying the calls issued up to that point. -/
def runInstances (p : ProviderBehavior) (dryRun : Bool) :
    List ResourceInstanceState → Except (List Event) (Nat × List Event)
  | [] => .ok (0, [])
  | inst :: rest =>
      match processInstance p dryRun inst with
      | .error evs => .error evs
      | .ok (c, evs) =>
          match runInstances p dryRun rest with
          | .error evs' => .error (evs ++ evs')
          | .ok (c', evs') => .ok (c + c', evs ++ evs')

/-- `mainExitCode`: returns the exit code, the final value of
`deletedResourcesCount`, and the provider bootstrap / provider calls
issued, in program order.  The provider name and version constraint are
hard-coded as in the source (`provider := "aws"`,
`InstallProvider(provider, "2.43.0")`), and the state file is read only
after the provider is installed, launched and configured. -/
def mainExitCode (env : Env) : Nat × Nat × List Event :=
  let tr0 := [Event.installCall "aws" "2.43.0"]
  if env.installDiagsErr then (1, 0, tr0)
  else if env.installErr then (1, 0, tr0)
  else
    let tr1 := tr0 ++ [Event.launchCall]
    if env.launchErr then (1, 0, tr1)
    else
      let tr2 := tr1 ++ [Event.configureCall]
      if env.configureDiagsErr then (1, 0, tr2)
      else
        match env.stateResult with
        | .error _ => (1, 0, tr2)
        | .ok instances =>
            if env.lookupDiagsErr then (1, 0, tr2)
            else
              match runInstances env.provider env.dryRun instances with
              | .error evs => (1, 0, tr2 ++ evs)
              | .ok (c, evs) => (0, c, tr2 ++ evs)

/-! ## Derived predicates used by the statements -/

/-- An instance on which the loop body executes the fatal `return 1`:
it has a current object whose attribute payload fails ID decoding. -/
def instanceFatal (inst : ResourceInstanceState) : Bool :=
  inst.hasCurrent &&
    (match getResourceID inst.attrs with
     | .error _ => true
     | .ok _ => false)

/-- Declarative restatement of a successful descriptor-level destroy:
Read reports no error, the refreshed state is not null, and
DeleteResource reports success. -/
def descriptorDestroySucceeds (p : ProviderBehavior) (dryRun : Bool)
    (resType resID : String) (r : ImportedResource) : Bool :=
  let readResp := p.readFn r
  !readResp.diagnostics.hasErrors && !readResp.newState.isNull &&
    (DeleteResource p resType resID readResp dryRun).1

/-- Declarative count of the descriptor-level destroys that succeed for
one resource instance, independent of the loop's incremental counter. -/
def instanceSuccessCount (p : ProviderBehavior) (dryRun : Bool)
    (inst : ResourceInstanceState) : Nat :=
  if inst.hasCurrent then
    match getResourceID inst.attrs with
    | .error _ => 0
    | .ok resID =>
        if inst.addr.mode = Mode.managed
            ∧ (p.importFn inst.addr.type resID).diagnostics.hasErrors = false then
          ((p.importFn inst.addr.type resID).importedResources.filter
            (fun r => descriptorDestroySucceeds p dryRun inst.addr.type resID r)).length
        else 0
  else 0

/-- Is this event the provider-install bootstrap step? -/
def Event.isInstall : Event → Bool
  | .installCall _ _ => true
  | _ => false

/-- Is this event the provider-launch bootstrap step? -/
def Event.isLaunch : Event → Bool
  | .launchCall => true
  | _ => false

/-- Is this event the provider-configure bootstrap step? -/
def Event.isConfigure : Event → Bool
  | .configureCall => true
  | _ => false

/-- Is this event one of the per-resource provider requests? -/
def Event.isResourceCall : Event → Bool
  | .importCall _ _ => true
  | .readCall _ => true
  | .applyCall _ => true
  | _ => false

/-- The calls recorded on either outcome of the instance loop. -/
def exceptEvents : Except (List Event) (Nat × List Event) → List Event
  | .error evs => evs
  | .ok (_, evs) => evs

/-! ## Concrete sample data for witnesses and counterexamples -/

/-- A sample imported-resource descriptor. -/
def sampleImported : ImportedResource :=
  { typeName := "aws_instance"
    state := .objectV [("id", .stringV "i-123")]
    privData := [] }

/-- A sample successful Read response with a non-null refreshed state. -/
def sampleRead : ReadResponse :=
  { newState := .objectV [("id", .stringV "i-123")]
    privData := []
    diagnostics := { hasErrors := false } }

/-- A provider oracle that answers every request successfully. -/
def sampleProvider : ProviderBehavior :=
  { importFn := fun _ _ => { importedResources := [sampleImported]
                             diagnostics := { hasErrors := false } }
    readFn := fun _ => sampleRead
    applyFn := fun _ => { newState := .nullV .dynamicPseudo
                          diagnostics := { hasErrors := false } } }

/-- A provider oracle whose Read reports the remote object as gone. -/
def goneProvider : ProviderBehavior :=
  { importFn := fun _ _ => { importedResources := [sampleImported]
                             diagnostics := { hasErrors := false } }
    readFn := fun _ => { newState := .nullV .dynamicPseudo
                         privData := []
                         diagnostics := { hasErrors := false } }
    applyFn := fun _ => { newState := .nullV .dynamicPseudo
                          diagnostics := { hasErrors := false } } }

/-- A Read response whose refreshed state carries a boolean
`force_destroy` attribute set to `false`. -/
def fdReadResp : ReadResponse :=
  { newState := .objectV [("force_destroy", .boolV false)]
    privData := []
    diagnostics := { hasErrors := false } }

/-- A data-source instance whose attribute bytes are not valid JSON. -/
def dataInstanceBad : ResourceInstanceState :=
  { addr := { mode := .dataSource, type := "aws_ami" }
    hasCurrent := true
    attrs := none }

/-- A data-source instance with a decodable `id`. -/
def dataInstanceOk : ResourceInstanceState :=
  { addr := { mode := .dataSource, type := "aws_ami" }
    hasCurrent := true
    attrs := some (.obj [("id", .str "ami-1")]) }

/-- A managed instance with a decodable `id`. -/
def managedInstance : ResourceInstanceState :=
  { addr := { mode := .managed, type := "aws_instance" }
    hasCurrent := true
    attrs := some (.obj [("id", .str "i-123")]) }

/-- An environment whose bootstrap succeeds over a one-data-source state
with undecodable attributes. -/
def envC4 : Env :=
  { installDiagsErr := false, installErr := false, launchErr := false
    configureDiagsErr := false
    stateResult := .ok [dataInstanceBad]
    lookupDiagsErr := false
    provider := sampleProvider
    dryRun := false }

/-- A managed instance whose attribute bytes are not valid JSON. -/
def managedInstanceBad : ResourceInstanceState :=
  { addr := { mode := .managed, type := "aws_instance" }
    hasCurrent := true
    attrs := none }

/-- An environment whose bootstrap succeeds over a one-managed-instance
state with undecodable attributes. -/
def envC5 : Env :=
  { installDiagsErr := false, installErr := false, launchErr := false
    configureDiagsErr := false
    stateResult := .ok [managedInstanceBad]
    lookupDiagsErr := false
    provider := sampleProvider
    dryRun := false }

/-- An environment whose bootstrap succeeds but whose state read fails
(for instance because the state file path does not exist). -/
def envC8 : Env :=
  { installDiagsErr := false, installErr := false, launchErr := false
    configureDiagsErr := false
    stateResult := .error ()
    lookupDiagsErr := false
    provider := sampleProvider
    dryRun := false }

/-- An environment whose bootstrap succeeds over a one-managed-instance
state served by the all-successful provider. -/
def envHappy : Env :=
  { installDiagsErr := false, installErr := false, launchErr := false
    configureDiagsErr := false
    stateResult := .ok [managedInstance]
    lookupDiagsErr := false
    provider := sampleProvider
    dryRun := false }

/-! ## Claim theorems -/

/-- C9: the force-destroy patch function is total and never errors: for
every input value that cannot iterate elements (null, unknown, or a
non-collection value), it returns the empty object value. -/
theorem enableForceDestroy_total_on_noniterable (state : CtyValue)
    (h : state.canIterateElements = false) :
    enableForceDestroyAttributes state = .objectV [] := by
  unfold enableForceDestroyAttributes
  simp [h]

/-- Witness for C9 at the null dynamic value. -/
theorem enableForceDestroy_total_on_noniterable_witness :
    (CtyValue.nullV .dynamicPseudo).canIterateElements = false ∧
    enableForceDestroyAttributes (.nullV .dynamicPseudo) = .objectV [] :=
  ⟨rfl, enableForceDestroy_total_on_noniterable (.nullV .dynamicPseudo) rfl⟩

/-- C2, counterexample: the apply request that the non-dry-run
`DeleteResource` path of `main.go` sends has as prior state the refreshed
state exactly as Read returned it, which differs from the force-destroy
patched state whenever the state holds a boolean `force_destroy`
attribute set to `false`. -/
theorem applyRequest_unpatched_cex :
    DeleteResource sampleProvider "aws_s3_bucket" "bucket-1" fdReadResp false
      = (true, [.applyCall (applyResourceChangeReq "aws_s3_bucket" fdReadResp)])
    ∧ (applyResourceChangeReq "aws_s3_bucket" fdReadResp).priorState
        = .objectV [("force_destroy", .boolV false)]
    ∧ enableForceDestroyAttributes fdReadResp.newState
        = .objectV [("force_destroy", .boolV true)]
    ∧ (applyResourceChangeReq "aws_s3_bucket" fdReadResp).priorState
        ≠ enableForceDestroyAttributes fdReadResp.newState := by
  refine ⟨rfl, rfl, rfl, ?_⟩
  intro h
  rw [show (applyResourceChangeReq "aws_s3_bucket" fdReadResp).priorState
        = CtyValue.objectV [("force_destroy", .boolV false)] from rfl,
      show enableForceDestroyAttributes fdReadResp.newState
        = CtyValue.objectV [("force_destroy", .boolV true)] from rfl] at h
  simp at h

/-- C2, amended: every non-dry-run `DeleteResource` sends exactly one
apply request, whose prior state is the refreshed state as returned by
Read (unpatched), and whose planned state and config are explicit nulls;
the `destroy` variant of the facade builds its apply request with the
force-destroy-patched current state as prior state and the same explicit
nulls. -/
theorem destroy_request_shapes (p : ProviderBehavior) (resType resID : String)
    (readResp : ReadResponse) (cur : CtyValue) :
    (∃ ok, DeleteResource p resType resID readResp false
        = (ok, [.applyCall (applyResourceChangeReq resType readResp)]))
    ∧ (applyResourceChangeReq resType readResp).priorState = readResp.newState
    ∧ (applyResourceChangeReq resType readResp).plannedState = .nullV .dynamicPseudo
    ∧ (applyResourceChangeReq resType readResp).config = .nullV .dynamicPseudo
    ∧ (destroyReq resType cur).priorState = enableForceDestroyAttributes cur
    ∧ (destroyReq resType cur).plannedState = .nullV .dynamicPseudo
    ∧ (destroyReq resType cur).config = .nullV .dynamicPseudo := by
  refine ⟨?_, rfl, rfl, rfl, rfl, rfl, rfl⟩
  by_cases h : (p.applyFn (applyResourceChangeReq resType readResp)).diagnostics.hasErrors
  · exact ⟨false, by simp [DeleteResource, h]⟩
  · exact ⟨true, by simp [DeleteResource, h]⟩

/-- C6: with the dry-run flag set, `DeleteResource` issues no apply call
and reports success unconditionally, and the per-descriptor processing
increments the deleted counter by one for such a dry-run success. -/
theorem dryRun_no_apply_and_counts (p : ProviderBehavior) (resType resID : String)
    (readResp : ReadResponse) (r : ImportedResource) :
    DeleteResource p resType resID readResp true = (true, []) ∧
    ((p.readFn r).diagnostics.hasErrors = false →
      (p.readFn r).newState.isNull = false →
      processImported p true resType resID r = (1, [.readCall r])) := by
  constructor
  · rfl
  · intro h1 h2
    simp [processImported, h1, h2, DeleteResource]

/-- Witness for C6 on the all-successful sample provider. -/
theorem dryRun_no_apply_and_counts_witness :
    DeleteResource sampleProvider "aws_instance" "i-123" sampleRead true = (true, []) ∧
    processImported sampleProvider true "aws_instance" "i-123" sampleImported
      = (1, [.readCall sampleImported]) := by
  have h := dryRun_no_apply_and_counts sampleProvider "aws_instance" "i-123"
    sampleRead sampleImported
  exact ⟨h.1, h.2 rfl rfl⟩

/-- C7: when Read reports the refreshed state as null, the descriptor is
skipped: no apply call is issued (in particular Destroy is never reached)
and the deleted counter is not incremented. -/
theorem read_null_skips_destroy (p : ProviderBehavior) (dryRun : Bool)
    (resType resID : String) (r : ImportedResource)
    (h : (p.readFn r).newState.isNull = true) :
    processImported p dryRun resType resID r = (0, [.readCall r]) := by
  by_cases hd : (p.readFn r).diagnostics.hasErrors
  · simp [processImported, hd]
  · simp [processImported, hd, h]

/-- Witness for C7 on a provider whose Read reports the object gone. -/
theorem read_null_skips_destroy_witness :
    (goneProvider.readFn sampleImported).newState.isNull = true ∧
    processImported goneProvider false "aws_instance" "i-123" sampleImported
      = (0, [.readCall sampleImported]) :=
  ⟨rfl, read_null_skips_destroy goneProvider false "aws_instance" "i-123"
    sampleImported rfl⟩

/-- C8, counterexample: with a failing state read (for instance a missing
state file) the run exits 1, but the trace of that very run records that
the provider was installed and launched before the exit. -/
theorem stateReadFail_bootstrap_cex :
    mainExitCode envC8
      = (1, 0, [.installCall "aws" "2.43.0", .launchCall, .configureCall])
    ∧ Event.installCall "aws" "2.43.0" ∈ (mainExitCode envC8).2.2
    ∧ Event.launchCall ∈ (mainExitCode envC8).2.2 :=
  ⟨rfl, List.Mem.head _, List.Mem.tail _ (List.Mem.head _)⟩

/-- C8, amended: when the provider bootstrap succeeds and the state read
fails, the run exits with status 1, after the provider has already been
installed, launched and configured. -/
theorem stateReadFail_after_bootstrap (env : Env)
    (h1 : env.installDiagsErr = false) (h2 : env.installErr = false)
    (h3 : env.launchErr = false) (h4 : env.configureDiagsErr = false)
    (h5 : env.stateResult = .error ()) :
    mainExitCode env
      = (1, 0, [.installCall "aws" "2.43.0", .launchCall, .configureCall]) := by
  simp [mainExitCode, h1, h2, h3, h4, h5]

/-- Witness for the amended C8 at the concrete failing-state-read
environment. -/
theorem stateReadFail_after_bootstrap_witness :
    envC8.stateResult = .error () ∧
    mainExitCode envC8
      = (1, 0, [.installCall "aws" "2.43.0", .launchCall, .configureCall]) :=
  ⟨rfl, stateReadFail_after_bootstrap envC8 rfl rfl rfl rfl rfl⟩

/-! ### Helper lemmas about the force-destroy patch -/

/-- A key absent from an association list is absent from its lookup. -/
theorem lookup_none_of_not_mem (k : String) :
    ∀ l : List (String × CtyValue), k ∉ l.map Prod.fst → l.lookup k = none := by
  intro l
  induction l with
  | nil => intro _; rfl
  | cons hd tl ih =>
    intro h
    simp only [List.map_cons, List.mem_cons, not_or] at h
    have hne : (k == hd.1) = false := beq_eq_false_iff_ne.mpr h.1
    obtain ⟨k', v'⟩ := hd
    simp only [List.lookup]
    rw [hne]
    exact ih h.2

/-- A key absent from the attributes is absent from the patched
attributes. -/
theorem patchAttrs_lookup_none (k : String) :
    ∀ l : List (String × CtyValue), k ∉ l.map Prod.fst →
      (patchAttrs l).lookup k = none := by
  intro l
  induction l with
  | nil => intro _; rfl
  | cons hd tl ih =>
    intro h
    simp only [List.map_cons, List.mem_cons, not_or] at h
    have hne : (k == hd.1) = false := beq_eq_false_iff_ne.mpr h.1
    obtain ⟨k', v'⟩ := hd
    simp only [patchAttrs]
    by_cases hf : k' = "force_detach_policies" ∨ k' = "force_destroy"
    · rw [if_pos hf]
      by_cases hb : (v'.typeOf.beq CtyType.bool) = true
      · rw [if_pos hb]
        simp only [List.lookup]
        rw [hne]
        exact ih h.2
      · rw [if_neg hb]
        exact ih h.2
    · rw [if_neg hf]
      simp only [List.lookup]
      rw [hne]
      exact ih h.2

/-- Patching leaves an attribute list without force-destroy names
untouched. -/
theorem patchAttrs_id :
    ∀ l : List (String × CtyValue),
      (∀ kv ∈ l, ¬(kv.1 = "force_detach_policies" ∨ kv.1 = "force_destroy")) →
      patchAttrs l = l := by
  intro l
  induction l with
  | nil => intro _; rfl
  | cons hd tl ih =>
    intro h
    obtain ⟨k', v'⟩ := hd
    have hf := h (k', v') (List.mem_cons_self _ _)
    simp only [patchAttrs]
    rw [if_neg hf, ih (fun kv hkv => h kv (List.mem_cons_of_mem _ hkv))]

/-- Lookup characterization of the patched attributes over duplicate-free
keys. -/
theorem patchAttrs_lookup (k : String) :
    ∀ attrs : List (String × CtyValue), (attrs.map Prod.fst).Nodup →
      (patchAttrs attrs).lookup k =
        match attrs.lookup k with
        | none => none
        | some v =>
            if k = "force_detach_policies" ∨ k = "force_destroy" then
              if v.typeOf.beq CtyType.bool then some (.boolV true) else none
            else some v := by
  intro attrs
  induction attrs with
  | nil => intro _; rfl
  | cons hd tl ih =>
    intro hnd
    obtain ⟨k', v'⟩ := hd
    rw [List.map_cons, List.nodup_cons] at hnd
    obtain ⟨hk', hnd'⟩ := hnd
    by_cases hkk : k = k'
    · subst hkk
      have hbeq : (k == k) = true := beq_self_eq_true k
      by_cases hf : k = "force_detach_policies" ∨ k = "force_destroy"
      · by_cases hb : (v'.typeOf.beq CtyType.bool) = true
        · simp only [patchAttrs, if_pos hf, if_pos hb, List.lookup, hbeq]
        · simp only [patchAttrs, if_pos hf, if_neg hb]
          rw [patchAttrs_lookup_none k tl hk']
          simp only [List.lookup, hbeq]
          rw [if_neg hb]
      · simp only [patchAttrs, if_neg hf, List.lookup, hbeq]
    · have hbeq : (k == k') = false := beq_eq_false_iff_ne.mpr hkk
      by_cases hf : k' = "force_detach_policies" ∨ k' = "force_destroy"
      · by_cases hb : (v'.typeOf.beq CtyType.bool) = true
        · simp only [patchAttrs, if_pos hf, if_pos hb, List.lookup, hbeq]
          exact ih hnd'
        · simp only [patchAttrs, if_pos hf, if_neg hb, List.lookup, hbeq]
          exact ih hnd'
      · simp only [patchAttrs, if_neg hf, List.lookup, hbeq]
        exact ih hnd'

/-- C1, counterexample: a force-destroy-named attribute of non-boolean
type does not pass through: the patch drops it, so the payload is not
returned with that attribute unchanged. -/
theorem forceDestroy_nonbool_dropped_cex :
    enableForceDestroyAttributes (.objectV [("force_destroy", .stringV "yes")])
      = .objectV []
    ∧ (patchAttrs [("force_destroy", .stringV "yes")]).lookup "force_destroy" = none
    ∧ enableForceDestroyAttributes (.objectV [("force_destroy", .stringV "yes")])
        ≠ .objectV [("force_destroy", .stringV "yes")] := by
  refine ⟨rfl, rfl, ?_⟩
  intro h
  rw [show enableForceDestroyAttributes (.objectV [("force_destroy", .stringV "yes")])
        = CtyValue.objectV [] from rfl] at h
  simp at h

/-- C1, amended: on an object payload with duplicate-free keys, every
force-destroy-named attribute of boolean type is `true` in the result,
every force-destroy-named attribute of non-boolean type is dropped, every
other attribute passes through unchanged (stated order-insensitively via
lookup), and a payload containing no force-destroy-named attribute is
returned with its content unchanged. -/
theorem forceDestroy_patch_characterization (attrs : List (String × CtyValue))
    (hnd : (attrs.map Prod.fst).Nodup) :
    enableForceDestroyAttributes (.objectV attrs) = .objectV (patchAttrs attrs)
    ∧ (∀ k : String,
        (patchAttrs attrs).lookup k =
          match attrs.lookup k with
          | none => none
          | some v =>
              if k = "force_detach_policies" ∨ k = "force_destroy" then
                if v.typeOf.beq CtyType.bool then some (.boolV true) else none
              else some v)
    ∧ ((∀ kv ∈ attrs, ¬(kv.1 = "force_detach_policies" ∨ kv.1 = "force_destroy")) →
        enableForceDestroyAttributes (.objectV attrs) = .objectV attrs) := by
  refine ⟨rfl, fun k => patchAttrs_lookup k attrs hnd, fun h => ?_⟩
  show CtyValue.objectV (patchAttrs attrs) = .objectV attrs
  rw [patchAttrs_id attrs h]

/-- Witness for the amended C1 on a concrete two-attribute payload. -/
theorem forceDestroy_patch_characterization_witness :
    (([("force_destroy", CtyValue.boolV false), ("acl", CtyValue.stringV "private")]
        |>.map Prod.fst).Nodup)
    ∧ (patchAttrs [("force_destroy", .boolV false), ("acl", .stringV "private")]).lookup
        "force_destroy" = some (.boolV true)
    ∧ (patchAttrs [("force_destroy", .boolV false), ("acl", .stringV "private")]).lookup
        "acl" = some (.stringV "private") := by
  have h := forceDestroy_patch_characterization
    [("force_destroy", .boolV false), ("acl", .stringV "private")] (by simp)
  exact ⟨by simp, h.2.1 "force_destroy", h.2.1 "acl"⟩

/-! ### Helper lemmas about the instance loop -/

/-- A fatal instance makes the loop body return 1 before any provider
call for it. -/
theorem processInstance_fatal (p : ProviderBehavior) (dryRun : Bool)
    (inst : ResourceInstanceState) (h : instanceFatal inst = true) :
    processInstance p dryRun inst = .error [] := by
  unfold instanceFatal at h
  rw [Bool.and_eq_true] at h
  obtain ⟨h1, h2⟩ := h
  cases hr : getResourceID inst.attrs with
  | error e => simp [processInstance, h1, hr]
  | ok rid => rw [hr] at h2; simp at h2

/-- A non-fatal instance lets the loop continue. -/
theorem processInstance_nonfatal (p : ProviderBehavior) (dryRun : Bool)
    (inst : ResourceInstanceState) (h : instanceFatal inst = false) :
    ∃ c evs, processInstance p dryRun inst = .ok (c, evs) := by
  unfold instanceFatal at h
  by_cases hc : inst.hasCurrent = true
  · rw [hc, Bool.true_and] at h
    cases hr : getResourceID inst.attrs with
    | error e => rw [hr] at h; simp at h
    | ok rid =>
        by_cases hm : inst.addr.mode ≠ Mode.managed
        · exact ⟨0, [], by simp [processInstance, hc, hr, hm]⟩
        · by_cases hi : (p.importFn inst.addr.type rid).diagnostics.hasErrors = true
          · exact ⟨0, [.importCall inst.addr.type rid],
              by simp [processInstance, hc, hr, hm, hi]⟩
          · refine ⟨(processImportedList p dryRun inst.addr.type rid
                (p.importFn inst.addr.type rid).importedResources).1,
              .importCall inst.addr.type rid ::
                (processImportedList p dryRun inst.addr.type rid
                  (p.importFn inst.addr.type rid).importedResources).2, ?_⟩
            simp [processInstance, hc, hr, hm, hi]
  · have hc' : inst.hasCurrent = false := by
      cases hcv : inst.hasCurrent
      · rfl
      · exact absurd hcv hc
    exact ⟨0, [], by simp [processInstance, hc']⟩

/-- A fatal instance anywhere after non-fatal ones aborts the instance
loop. -/
theorem runInstances_fatal (p : ProviderBehavior) (dryRun : Bool) :
    ∀ (pre : List ResourceInstanceState) (bad : ResourceInstanceState)
      (rest : List ResourceInstanceState),
      (∀ i ∈ pre, instanceFatal i = false) → instanceFatal bad = true →
      ∃ evs, runInstances p dryRun (pre ++ bad :: rest) = .error evs := by
  intro pre
  induction pre with
  | nil =>
      intro bad rest _ hbad
      exact ⟨[], by simp [runInstances, processInstance_fatal p dryRun bad hbad]⟩
  | cons hd tl ih =>
      intro bad rest hpre hbad
      obtain ⟨c, evs, hok⟩ := processInstance_nonfatal p dryRun hd
        (hpre hd (List.mem_cons_self hd tl))
      obtain ⟨evs', herr⟩ := ih bad rest
        (fun i hi => hpre i (List.mem_cons_of_mem hd hi)) hbad
      exact ⟨evs ++ evs', by simp [runInstances, hok, herr]⟩

/-- C4, counterexample: a run over a state holding one data-source
instance whose attribute payload fails ID decoding exits with status 1 —
the ID decode precedes the mode check, so the instance is not skipped. -/
theorem dataSource_decode_fatal_cex :
    mainExitCode envC4
      = (1, 0, [.installCall "aws" "2.43.0", .launchCall, .configureCall]) := rfl

/-- C4, amended: the loop body decodes the resource ID before the mode
check; a data-source instance whose ID decodes is then skipped without
any provider call, while a data-source instance whose payload fails ID
decoding is fatal to the whole run. -/
theorem id_decode_precedes_mode_check (p : ProviderBehavior) (dryRun : Bool)
    (inst : ResourceInstanceState)
    (hc : inst.hasCurrent = true) (hm : inst.addr.mode = Mode.dataSource) :
    (∀ rid, getResourceID inst.attrs = .ok rid →
        processInstance p dryRun inst = .ok (0, []))
    ∧ (∀ e, getResourceID inst.attrs = .error e →
        processInstance p dryRun inst = .error []) := by
  constructor
  · intro rid hr
    simp [processInstance, hc, hr, hm]
  · intro e hr
    simp [processInstance, hc, hr]

/-- Witness for the amended C4 at concrete data-source instances. -/
theorem id_decode_precedes_mode_check_witness :
    dataInstanceOk.hasCurrent = true ∧ dataInstanceOk.addr.mode = Mode.dataSource
    ∧ processInstance sampleProvider false dataInstanceOk = .ok (0, [])
    ∧ processInstance sampleProvider false dataInstanceBad = .error [] := by
  refine ⟨rfl, rfl, ?_, ?_⟩
  · exact (id_decode_precedes_mode_check sampleProvider false dataInstanceOk
      rfl rfl).1 "ami-1" rfl
  · exact (id_decode_precedes_mode_check sampleProvider false dataInstanceBad
      rfl rfl).2 () rfl

/-- C5, counterexample: a decoded payload lacking an `id` field is not an
error — `getResourceID` returns the empty string. -/
theorem missing_id_not_error_cex :
    getResourceID (some (.obj [])) = .ok ""
    ∧ getResourceID (some (.obj [])) ≠ .error () := by
  refine ⟨rfl, ?_⟩
  intro h
  rw [show getResourceID (some (.obj [])) = .ok "" from rfl] at h
  simp at h

/-- C5, amended: `getResourceID` errors when the payload fails to decode
(and not when a decoded object merely lacks `id`, which yields the empty
ID), and a decode error on an instance with a current object aborts the
whole run with exit status 1. -/
theorem id_decode_error_aborts (env : Env)
    (pre : List ResourceInstanceState) (bad : ResourceInstanceState)
    (rest : List ResourceInstanceState)
    (h1 : env.installDiagsErr = false) (h2 : env.installErr = false)
    (h3 : env.launchErr = false) (h4 : env.configureDiagsErr = false)
    (h5 : env.stateResult = .ok (pre ++ bad :: rest))
    (h6 : env.lookupDiagsErr = false)
    (hpre : ∀ i ∈ pre, instanceFatal i = false)
    (hbad : instanceFatal bad = true) :
    getResourceID none = .error ()
    ∧ getResourceID (some (.obj [])) = .ok ""
    ∧ (mainExitCode env).1 = 1 := by
  refine ⟨rfl, rfl, ?_⟩
  obtain ⟨evs, hevs⟩ := runInstances_fatal env.provider env.dryRun pre bad rest hpre hbad
  simp [mainExitCode, h1, h2, h3, h4, h5, h6, hevs]

/-- Witness for the amended C5 at the concrete one-bad-instance
environment. -/
theorem id_decode_error_aborts_witness :
    instanceFatal managedInstanceBad = true ∧ (mainExitCode envC5).1 = 1 := by
  refine ⟨rfl, ?_⟩
  exact (id_decode_error_aborts envC5 [] managedInstanceBad [] rfl rfl rfl rfl rfl rfl
    (by intro i hi; cases hi) rfl).2.2

/-! ### Helper lemmas: every per-resource call is import/read/apply -/

/-- Events recorded by `DeleteResource` are per-resource requests. -/
theorem DeleteResource_events_resource (p : ProviderBehavior) (resType resID : String)
    (readResp : ReadResponse) (dryRun : Bool) :
    ∀ e ∈ (DeleteResource p resType resID readResp dryRun).2,
      e.isResourceCall = true := by
  unfold DeleteResource
  cases dryRun with
  | true => intro e he; simp at he
  | false =>
      by_cases ha :
          (p.applyFn (applyResourceChangeReq resType readResp)).diagnostics.hasErrors = true
      · intro e he
        simp [ha] at he
        subst he; rfl
      · intro e he
        simp [ha] at he
        subst he; rfl

/-- Events recorded for one descriptor are per-resource requests. -/
theorem processImported_events_resource (p : ProviderBehavior) (d : Bool)
    (t i : String) (r : ImportedResource) :
    ∀ e ∈ (processImported p d t i r).2, e.isResourceCall = true := by
  unfold processImported
  by_cases h1 : (p.readFn r).diagnostics.hasErrors = true
  · intro e he; simp [h1] at he; subst he; rfl
  · by_cases h2 : (p.readFn r).newState.isNull = true
    · intro e he; simp [h1, h2] at he; subst he; rfl
    · intro e he
      simp [h1, h2] at he
      rcases he with rfl | he
      · rfl
      · exact DeleteResource_events_resource p t i (p.readFn r) d e he

/-- Events recorded for a descriptor list are per-resource requests. -/
theorem processImportedList_events_resource (p : ProviderBehavior) (d : Bool)
    (t i : String) :
    ∀ l : List ImportedResource,
      ∀ e ∈ (processImportedList p d t i l).2, e.isResourceCall = true := by
  intro l
  induction l with
  | nil => intro e he; simp [processImportedList] at he
  | cons r rest ih =>
      intro e he
      simp only [processImportedList] at he
      rw [List.mem_append] at he
      rcases he with he | he
      · exact processImported_events_resource p d t i r e he
      · exact ih e he

/-- Events recorded for one instance are per-resource requests. -/
theorem processInstance_events_resource (p : ProviderBehavior) (d : Bool)
    (inst : ResourceInstanceState) :
    ∀ e ∈ exceptEvents (processInstance p d inst), e.isResourceCall = true := by
  intro e he
  by_cases hc : inst.hasCurrent = true
  · cases hr : getResourceID inst.attrs with
    | error er => simp [processInstance, hc, hr, exceptEvents] at he
    | ok rid =>
        by_cases hm : inst.addr.mode ≠ Mode.managed
        · simp [processInstance, hc, hr, hm, exceptEvents] at he
        · by_cases hi : (p.importFn inst.addr.type rid).diagnostics.hasErrors = true
          · simp [processInstance, hc, hr, hm, hi, exceptEvents] at he
            subst he; rfl
          · simp [processInstance, hc, hr, hm, hi, exceptEvents] at he
            rcases he with rfl | he
            · rfl
            · exact processImportedList_events_resource p d inst.addr.type rid _ e he
  · simp [processInstance, hc, exceptEvents] at he

/-- Events recorded by the instance loop are per-resource requests. -/
theorem runInstances_events_resource (p : ProviderBehavior) (d : Bool) :
    ∀ l : List ResourceInstanceState,
      ∀ e ∈ exceptEvents (runInstances p d l), e.isResourceCall = true := by
  intro l
  induction l with
  | nil => intro e he; simp [runInstances, exceptEvents] at he
  | cons hd tl ih =>
      intro e he
      cases hp : processInstance p d hd with
      | error evs =>
          rw [show runInstances p d (hd :: tl) = .error evs from by
                simp [runInstances, hp]] at he
          exact processInstance_events_resource p d hd e (by rw [hp]; exact he)
      | ok ce =>
          obtain ⟨c, evs⟩ := ce
          cases hrun : runInstances p d tl with
          | error evs' =>
              rw [show runInstances p d (hd :: tl) = .error (evs ++ evs') from by
                    simp [runInstances, hp, hrun]] at he
              rw [show exceptEvents (Except.error (evs ++ evs')
                    : Except (List Event) (Nat × List Event)) = evs ++ evs' from rfl,
                  List.mem_append] at he
              rcases he with he | he
              · exact processInstance_events_resource p d hd e (by rw [hp]; exact he)
              · exact ih e (by rw [hrun]; exact he)
          | ok ce' =>
              obtain ⟨c', evs'⟩ := ce'
              rw [show runInstances p d (hd :: tl) = .ok (c + c', evs ++ evs') from by
                    simp [runInstances, hp, hrun]] at he
              rw [show exceptEvents (Except.ok (c + c', evs ++ evs')
                    : Except (List Event) (Nat × List Event)) = evs ++ evs' from rfl,
                  List.mem_append] at he
              rcases he with he | he
              · exact processInstance_events_resource p d hd e (by rw [hp]; exact he)
              · exact ih e (by rw [hrun]; exact he)

/-- A per-resource request is none of the bootstrap steps. -/
theorem resourceCall_not_bootstrap (e : Event) (h : e.isResourceCall = true) :
    e.isInstall = false ∧ e.isLaunch = false ∧ e.isConfigure = false := by
  cases e <;>
    simp [Event.isResourceCall, Event.isInstall, Event.isLaunch,
      Event.isConfigure] at h ⊢

/-- C10: every run records exactly one provider-install call, hard-coded
to provider name `aws` with version constraint `2.43.0`, regardless of
the environment (state contents included), and at most one launch and one
configure call. -/
theorem single_hardcoded_provider (env : Env) :
    (mainExitCode env).2.2.filter Event.isInstall = [.installCall "aws" "2.43.0"]
    ∧ ((mainExitCode env).2.2.filter Event.isLaunch).length ≤ 1
    ∧ ((mainExitCode env).2.2.filter Event.isConfigure).length ≤ 1 := by
  unfold mainExitCode
  by_cases h1 : env.installDiagsErr = true
  · simp [h1, Event.isInstall, Event.isLaunch, Event.isConfigure, List.filter]
  · by_cases h2 : env.installErr = true
    · simp [h1, h2, Event.isInstall, Event.isLaunch, Event.isConfigure, List.filter]
    · by_cases h3 : env.launchErr = true
      · simp [h1, h2, h3, Event.isInstall, Event.isLaunch, Event.isConfigure, List.filter]
      · by_cases h4 : env.configureDiagsErr = true
        · simp [h1, h2, h3, h4, Event.isInstall, Event.isLaunch, Event.isConfigure,
            List.filter]
        · cases hs : env.stateResult with
          | error u =>
              simp [h1, h2, h3, h4, hs, Event.isInstall, Event.isLaunch,
                Event.isConfigure, List.filter]
          | ok instances =>
              by_cases h6 : env.lookupDiagsErr = true
              · simp [h1, h2, h3, h4, hs, h6, Event.isInstall, Event.isLaunch,
                  Event.isConfigure, List.filter]
              · have hres := runInstances_events_resource env.provider env.dryRun instances
                cases hrun : runInstances env.provider env.dryRun instances with
                | error evs =>
                    rw [hrun] at hres
                    simp [h1, h2, h3, h4, hs, h6, hrun, Event.isInstall, Event.isLaunch,
                      Event.isConfigure, List.filter_append, List.filter]
                    exact ⟨fun a ha => (resourceCall_not_bootstrap a (hres a ha)).1,
                      fun a ha => (resourceCall_not_bootstrap a (hres a ha)).2.1,
                      fun a ha => (resourceCall_not_bootstrap a (hres a ha)).2.2⟩
                | ok ce =>
                    obtain ⟨c, evs⟩ := ce
                    rw [hrun] at hres
                    simp [h1, h2, h3, h4, hs, h6, hrun, Event.isInstall, Event.isLaunch,
                      Event.isConfigure, List.filter_append, List.filter]
                    exact ⟨fun a ha => (resourceCall_not_bootstrap a (hres a ha)).1,
                      fun a ha => (resourceCall_not_bootstrap a (hres a ha)).2.1,
                      fun a ha => (resourceCall_not_bootstrap a (hres a ha)).2.2⟩

/-! ### Helper lemmas: the loop counter counts successful destroys -/

/-- The per-descriptor counter increment is 1 exactly on a successful
descriptor-level destroy. -/
theorem processImported_count (p : ProviderBehavior) (d : Bool) (t i : String)
    (r : ImportedResource) :
    (processImported p d t i r).1
      = if descriptorDestroySucceeds p d t i r then 1 else 0 := by
  unfold processImported descriptorDestroySucceeds
  by_cases h1 : (p.readFn r).diagnostics.hasErrors = true
  · simp [h1]
  · by_cases h2 : (p.readFn r).newState.isNull = true
    · simp [h1, h2]
    · simp [h1, h2]

/-- The descriptor loop's counter contribution is the number of
successful descriptor-level destroys. -/
theorem processImportedList_count (p : ProviderBehavior) (d : Bool) (t i : String) :
    ∀ l : List ImportedResource,
      (processImportedList p d t i l).1
        = (l.filter (fun r => descriptorDestroySucceeds p d t i r)).length := by
  intro l
  induction l with
  | nil => rfl
  | cons r rest ih =>
      show (processImported p d t i r).1 + (processImportedList p d t i rest).1
        = ((r :: rest).filter (fun r => descriptorDestroySucceeds p d t i r)).length
      rw [processImported_count, ih]
      by_cases h : descriptorDestroySucceeds p d t i r = true
      · simp [List.filter_cons, h, Nat.add_comm]
      · simp [List.filter_cons, h]

/-- A non-fatal instance contributes exactly its declarative success
count, and records its import call whenever it is managed with a
decodable ID. -/
theorem processInstance_count (p : ProviderBehavior) (d : Bool)
    (inst : ResourceInstanceState) (h : instanceFatal inst = false) :
    ∃ evs, processInstance p d inst = .ok (instanceSuccessCount p d inst, evs)
      ∧ ∀ rid, inst.hasCurrent = true → inst.addr.mode = Mode.managed →
          getResourceID inst.attrs = .ok rid →
          Event.importCall inst.addr.type rid ∈ evs := by
  unfold instanceFatal at h
  by_cases hc : inst.hasCurrent = true
  · rw [hc, Bool.true_and] at h
    cases hr : getResourceID inst.attrs with
    | error e => rw [hr] at h; simp at h
    | ok rid =>
        by_cases hm : inst.addr.mode = Mode.managed
        · by_cases hi : (p.importFn inst.addr.type rid).diagnostics.hasErrors = true
          · refine ⟨[.importCall inst.addr.type rid], ?_, ?_⟩
            · have h0 : instanceSuccessCount p d inst = 0 := by
                simp [instanceSuccessCount, hc, hr, hm, hi]
              rw [h0]
              simp [processInstance, hc, hr, hm, hi]
            · intro rid' _ _ hr'
              injection hr' with h'
              subst h'
              exact List.mem_cons_self _ _
          · refine ⟨.importCall inst.addr.type rid ::
                (processImportedList p d inst.addr.type rid
                  (p.importFn inst.addr.type rid).importedResources).2, ?_, ?_⟩
            · have hcount : instanceSuccessCount p d inst
                  = (processImportedList p d inst.addr.type rid
                      (p.importFn inst.addr.type rid).importedResources).1 := by
                rw [processImportedList_count]
                simp [instanceSuccessCount, hc, hr, hm, hi]
              rw [hcount]
              simp [processInstance, hc, hr, hm, hi]
            · intro rid' _ _ hr'
              injection hr' with h'
              subst h'
              exact List.mem_cons_self _ _
        · refine ⟨[], ?_, ?_⟩
          · have h0 : instanceSuccessCount p d inst = 0 := by
              simp [instanceSuccessCount, hc, hr, hm]
            rw [h0]
            simp [processInstance, hc, hr, hm]
          · intro rid' _ hm' _
            exact absurd hm' hm
  · have hc' : inst.hasCurrent = false := by
      cases hcv : inst.hasCurrent
      · rfl
      · exact absurd hcv hc
    refine ⟨[], ?_, ?_⟩
    · have h0 : instanceSuccessCount p d inst = 0 := by
        simp [instanceSuccessCount, hc']
      rw [h0]
      simp [processInstance, hc']
    · intro rid' hcc _ _
      rw [hc'] at hcc
      cases hcc

/-- Over non-fatal instances the loop completes with the sum of the
declarative per-instance success counts, and records every managed
instance's import call. -/
theorem runInstances_count (p : ProviderBehavior) (d : Bool) :
    ∀ l : List ResourceInstanceState,
      (∀ i ∈ l, instanceFatal i = false) →
      ∃ evs, runInstances p d l
          = .ok ((l.map (instanceSuccessCount p d)).sum, evs)
        ∧ ∀ inst ∈ l, ∀ rid, inst.hasCurrent = true →
            inst.addr.mode = Mode.managed → getResourceID inst.attrs = .ok rid →
            Event.importCall inst.addr.type rid ∈ evs := by
  intro l
  induction l with
  | nil => exact fun _ => ⟨[], rfl, by intro inst hinst; cases hinst⟩
  | cons hd tl ih =>
      intro hall
      obtain ⟨evs1, hp1, hm1⟩ := processInstance_count p d hd
        (hall hd (List.mem_cons_self hd tl))
      obtain ⟨evs2, hp2, hm2⟩ := ih (fun i hi => hall i (List.mem_cons_of_mem hd hi))
      refine ⟨evs1 ++ evs2, ?_, ?_⟩
      · simp [runInstances, hp1, hp2]
      · intro inst hinst rid hc hm hr
        rcases List.mem_cons.mp hinst with rfl | hinst
        · exact List.mem_append_left _ (hm1 rid hc hm hr)
        · exact List.mem_append_right _ (hm2 inst hinst rid hc hm hr)

/-- C3: when the bootstrap succeeds and no instance has the fatal
ID-decode failure, the run exits 0 whatever the providers' per-resource
failures; the reported deleted count is exactly the number of
descriptor-level destroys that succeed; and every managed instance with a
current object and decodable ID is attempted (its import call appears in
the trace). -/
theorem failure_isolation (env : Env) (instances : List ResourceInstanceState)
    (h1 : env.installDiagsErr = false) (h2 : env.installErr = false)
    (h3 : env.launchErr = false) (h4 : env.configureDiagsErr = false)
    (h5 : env.stateResult = .ok instances) (h6 : env.lookupDiagsErr = false)
    (hnf : ∀ i ∈ instances, instanceFatal i = false) :
    (mainExitCode env).1 = 0
    ∧ (mainExitCode env).2.1
        = (instances.map (instanceSuccessCount env.provider env.dryRun)).sum
    ∧ ∀ inst ∈ instances, ∀ rid, inst.hasCurrent = true →
        inst.addr.mode = Mode.managed → getResourceID inst.attrs = .ok rid →
        Event.importCall inst.addr.type rid ∈ (mainExitCode env).2.2 := by
  obtain ⟨evs, hrun, hmem⟩ := runInstances_count env.provider env.dryRun instances hnf
  have hmain : mainExitCode env
      = (0, (instances.map (instanceSuccessCount env.provider env.dryRun)).sum,
          [Event.installCall "aws" "2.43.0", .launchCall, .configureCall] ++ evs) := by
    simp [mainExitCode, h1, h2, h3, h4, h5, h6, hrun]
  rw [hmain]
  refine ⟨rfl, rfl, ?_⟩
  intro inst hinst rid hc hm hr
  exact List.mem_append_right _ (hmem inst hinst rid hc hm hr)

/-- Witness for C3 at the happy one-instance environment, where the one
destroy succeeds and the reported count is 1. -/
theorem failure_isolation_witness :
    (∀ i ∈ [managedInstance], instanceFatal i = false)
    ∧ (mainExitCode envHappy).1 = 0
    ∧ (mainExitCode envHappy).2.1 = 1 := by
  have hnf : ∀ i ∈ [managedInstance], instanceFatal i = false := by
    intro i hi
    rcases List.mem_cons.mp hi with rfl | hi
    · rfl
    · cases hi
  have h := failure_isolation envHappy [managedInstance] rfl rfl rfl rfl rfl rfl hnf
  exact ⟨hnf, h.1, h.2.1.trans rfl⟩

end Terradozer
